import Mathlib

/-!
Verification of the chiTCP per-connection protocol engine
(src/src/chitcpd/tcp.c) against its natural-language specification.

The C source is shallowly embedded below.  Machine integers of type
uint32_t (sequence numbers) are modelled as Nat with explicit reduction
modulo 4294967296 wherever the C performs 32-bit arithmetic; the 16-bit
window field is reduced modulo 65536.  The per-connection record
tcp_data_t, the packet header, and each of the state handler functions
are translated from the source.  Collaborator primitives that live in
the chiTCP framework outside this file (byte-order conversion, the
SEG_SEQ/SEG_ACK/SEG_WND accessors, the circular buffer space query, the
packet send primitive and the state-update primitive) are modelled from
the specification, as noted on each definition.
-/

namespace ChiTCP

/-- The eleven TCP states, as in the tcp_state_t enumeration used by
the source (spec section 4.1). -/
inductive tcp_state_t where
  | CLOSED | LISTEN | SYN_SENT | SYN_RCVD | ESTABLISHED
  | FIN_WAIT_1 | FIN_WAIT_2 | CLOSE_WAIT | CLOSING | TIME_WAIT | LAST_ACK
deriving Repr, DecidableEq

/-- The event types dispatched to the state handlers, as named in the
source (TIMEOUT_RTX and TIMEOUT_PST are the retransmission and persist
timeouts of spec section 4.1). -/
inductive tcp_event_type_t where
  | APPLICATION_CONNECT | APPLICATION_SEND | APPLICATION_RECEIVE
  | APPLICATION_CLOSE | PACKET_ARRIVAL | TIMEOUT_RTX | TIMEOUT_PST | CLEANUP
deriving Repr, DecidableEq

/-- Modelled from the spec: 32-bit host-to-network byte order conversion
(spec section 6: sequence, acknowledgment and window fields travel in
network byte order; the host is little-endian, so the conversion is a
byte reversal of the 32-bit value). -/
def htonl (x : Nat) : Nat :=
  x % 256 * 16777216 + x / 256 % 256 * 65536 + x / 65536 % 256 * 256 + x % 4294967296 / 16777216

/-- Modelled from the spec: 32-bit network-to-host conversion, the
inverse byte reversal. -/
def ntohl (x : Nat) : Nat := htonl x

/-- Modelled from the spec: 16-bit host-to-network byte order
conversion (byte swap of the low 16 bits). -/
def htons (x : Nat) : Nat :=
  x % 256 * 256 + x % 65536 / 256

/-- Modelled from the spec: 16-bit network-to-host conversion. -/
def ntohs (x : Nat) : Nat := htons x

/-- Modelled from the spec: chitcp_htonl is the chiTCP wrapper around
htonl (the CLOSED handler uses it to fill the SYN header). -/
def chitcp_htonl (x : Nat) : Nat := htonl x

/-- Modelled from the spec: chitcp_htons is the chiTCP wrapper around
htons. -/
def chitcp_htons (x : Nat) : Nat := htons x

/-- The TCP header fields the engine reads and writes: sequence number,
acknowledgment number, the SYN/ACK/FIN flag bits and the advertised
window.  Header fields hold wire values (network byte order), as the
spec section 6 requires.  Ports, checksum and options are never touched
by the engine and are omitted. -/
structure tcphdr_t where
  seq : Nat
  ack_seq : Nat
  syn : Bool
  ack : Bool
  fin : Bool
  win : Nat
deriving Repr, DecidableEq

/-- A TCP packet as the engine sees it; the handshake logic under
verification only ever builds and inspects headers (payloads are empty
in every segment the embedded handlers construct). -/
structure tcp_packet_t where
  header : tcphdr_t
deriving Repr, DecidableEq

/-- Modelled from the spec: SEG_SEQ accessor of chitcp/packet.h, the
segment sequence number converted to host order. -/
def SEG_SEQ (p : tcp_packet_t) : Nat := ntohl p.header.seq

/-- Modelled from the spec: SEG_ACK accessor, the acknowledgment number
converted to host order. -/
def SEG_ACK (p : tcp_packet_t) : Nat := ntohl p.header.ack_seq

/-- Modelled from the spec: SEG_WND accessor, the advertised window
converted to host order. -/
def SEG_WND (p : tcp_packet_t) : Nat := ntohs p.header.win

/-- The per-connection record tcp_data_t (spec section 3).  The field
recv_available models the value returned by
circular_buffer_available applied to the receive buffer (spec section 6,
available_space); the buffers themselves are external collaborators. -/
structure tcp_data_t where
  pending_packets : List tcp_packet_t
  ISS : Nat
  IRS : Nat
  SND_UNA : Nat
  SND_NXT : Nat
  SND_WND : Nat
  RCV_NXT : Nat
  RCV_WND : Nat
  recv_available : Nat
deriving Repr, DecidableEq

/-- Modelled from the spec: the success return code of the chiTCP
error-code enumeration (spec section 6: handlers return success or a
recoverable-error code). -/
def CHITCP_OK : Int := 0

/-- The observable outcome of one handler invocation: the updated
connection record, the state passed to chitcpd_update_tcp_state (or the
unchanged current state), the packets handed to chitcpd_send_tcp_packet
in order, the packets passed to chitcp_tcp_packet_free, whether the
unexpected-event warning was logged, and the C return value. -/
structure handler_result where
  data : tcp_data_t
  next_state : tcp_state_t
  sent : List tcp_packet_t
  freed : List tcp_packet_t
  warned : Bool
  ret : Int
deriving Repr, DecidableEq

/-- A handler invocation that changes nothing: record untouched, no
transition, nothing sent or freed, returning CHITCP_OK. -/
def noop_result (s : tcp_state_t) (d : tcp_data_t) (w : Bool) : handler_result :=
  { data := d, next_state := s, sent := [], freed := [], warned := w, ret := CHITCP_OK }

/-- The ACK-acceptability comparison of handle_PACKET_ARRIVAL
(tcp.c lines 418-421 and 470-473): plain unsigned comparison
SND_UNA less-or-equal SEG.ACK less-or-equal SND_NXT. -/
def ack_acceptable (snd_una snd_nxt seg_ack : Nat) : Bool :=
  decide (snd_una ≤ seg_ack) && decide (seg_ack ≤ snd_nxt)

/-- The illegal-acknowledgment pre-check of the SYN_SENT arrival path
(tcp.c lines 412-415): SEG.ACK at most ISS, or SEG.ACK above SND_NXT,
again as plain unsigned comparisons. -/
def illegal_ack_SYN_SENT (iss snd_nxt seg_ack : Nat) : Bool :=
  decide (seg_ack ≤ iss) || decide (snd_nxt < seg_ack)

/-- ACK_PACKET (tcp.c lines 489-500): builds a bare ACK whose sequence
number is SND_NXT, acknowledgment number RCV_NXT and window RCV_WND,
each converted to network order; the connection record is returned
unchanged in the second component, mirroring that the C function never
writes through its data pointer. -/
def ACK_PACKET (data : tcp_data_t) : tcp_packet_t × tcp_data_t :=
  (⟨{ seq := htonl data.SND_NXT, ack_seq := htonl data.RCV_NXT,
      syn := false, ack := true, fin := false, win := htons data.RCV_WND }⟩, data)

/-- SYN_ACK_PACKET (tcp.c lines 502-514): builds a SYN-ACK whose
sequence number is ISS, acknowledgment number RCV_NXT and window
RCV_WND, in network order; the record is again returned unchanged. -/
def SYN_ACK_PACKET (data : tcp_data_t) : tcp_packet_t × tcp_data_t :=
  (⟨{ seq := htonl data.ISS, ack_seq := htonl data.RCV_NXT,
      syn := true, ack := true, fin := false, win := htons data.RCV_WND }⟩, data)

/-- handle_PACKET_ARRIVAL (tcp.c lines 373-487).  The parameter r is
the injected value of rand() (spec section 9 asks for an injected
generator; the source computes ISS as rand() modulo 1000, plus 1).
The head of pending_packets is popped and processed according to the
current state; when the queue is empty the C code dereferences a null
pointer, modelled as the result none. -/
def handle_PACKET_ARRIVAL (r : Nat) (state : tcp_state_t) (data0 : tcp_data_t) :
    Option handler_result :=
  match data0.pending_packets with
  | [] => none
  | packet_rcvd :: rest =>
    let data : tcp_data_t := { data0 with pending_packets := rest }
    let header := packet_rcvd.header
    match state with
    | .LISTEN =>
      if header.syn then
        let data := { data with
          RCV_NXT := (SEG_SEQ packet_rcvd + 1) % 4294967296,
          IRS := SEG_SEQ packet_rcvd,
          ISS := r % 1000 + 1,
          RCV_WND := data.recv_available }
        let pr := SYN_ACK_PACKET data
        let data := { pr.2 with
          SND_NXT := (pr.2.ISS + 1) % 4294967296,
          SND_UNA := pr.2.ISS,
          SND_WND := SEG_WND packet_rcvd }
        some { data := data, next_state := .SYN_RCVD, sent := [pr.1],
               freed := [pr.1, packet_rcvd], warned := false, ret := CHITCP_OK }
      else
        some { data := data, next_state := .LISTEN, sent := [],
               freed := [packet_rcvd], warned := false, ret := CHITCP_OK }
    | .SYN_SENT =>
      if header.ack then
        if illegal_ack_SYN_SENT data.ISS data.SND_NXT (SEG_ACK packet_rcvd) then
          some { data := data, next_state := .SYN_SENT, sent := [],
                 freed := [packet_rcvd], warned := false, ret := CHITCP_OK }
        else if ack_acceptable data.SND_UNA data.SND_NXT (SEG_ACK packet_rcvd) then
          if header.syn then
            let data := { data with
              RCV_NXT := (SEG_SEQ packet_rcvd + 1) % 4294967296,
              IRS := SEG_SEQ packet_rcvd,
              SND_UNA := SEG_ACK packet_rcvd,
              SND_WND := SEG_WND packet_rcvd }
            if data.ISS < data.SND_UNA then
              let pr := ACK_PACKET data
              some { data := pr.2, next_state := .ESTABLISHED, sent := [pr.1],
                     freed := [pr.1, packet_rcvd], warned := false, ret := CHITCP_OK }
            else
              let pr := SYN_ACK_PACKET data
              some { data := pr.2, next_state := .SYN_RCVD, sent := [pr.1],
                     freed := [pr.1, packet_rcvd], warned := false, ret := CHITCP_OK }
          else
            some { data := data, next_state := .SYN_SENT, sent := [],
                   freed := [packet_rcvd], warned := false, ret := CHITCP_OK }
        else
          some { data := data, next_state := .SYN_SENT, sent := [],
                 freed := [packet_rcvd], warned := false, ret := CHITCP_OK }
      else
        some { data := data, next_state := .SYN_SENT, sent := [],
               freed := [packet_rcvd], warned := false, ret := CHITCP_OK }
    | .SYN_RCVD =>
      if header.ack then
        if ack_acceptable data.SND_UNA data.SND_NXT (SEG_ACK packet_rcvd) then
          let data := { data with
            RCV_NXT := (SEG_SEQ packet_rcvd + 1) % 4294967296,
            SND_UNA := SEG_ACK packet_rcvd,
            SND_WND := SEG_WND packet_rcvd }
          some { data := data, next_state := .ESTABLISHED, sent := [],
                 freed := [packet_rcvd], warned := false, ret := CHITCP_OK }
        else
          some { data := data, next_state := .SYN_RCVD, sent := [],
                 freed := [packet_rcvd], warned := false, ret := CHITCP_OK }
      else
        some { data := data, next_state := .SYN_RCVD, sent := [],
               freed := [packet_rcvd], warned := false, ret := CHITCP_OK }
    | s =>
      some { data := data, next_state := s, sent := [],
             freed := [packet_rcvd], warned := false, ret := CHITCP_OK }

/-- chitcpd_tcp_state_handle_CLOSED (tcp.c lines 132-169). -/
def chitcpd_tcp_state_handle_CLOSED (r : Nat) (data : tcp_data_t)
    (event : tcp_event_type_t) : Option handler_result :=
  match event with
  | .APPLICATION_CONNECT =>
    let iss := r % 1000 + 1
    let data := { data with
      ISS := iss,
      SND_UNA := iss,
      SND_NXT := (iss + 1) % 4294967296 }
    let data := { data with RCV_WND := data.recv_available }
    let packet : tcp_packet_t :=
      ⟨{ seq := chitcp_htonl data.ISS, ack_seq := 0,
         syn := true, ack := false, fin := false,
         win := chitcp_htons data.RCV_WND }⟩
    some { data := data, next_state := .SYN_SENT, sent := [packet],
           freed := [packet], warned := false, ret := CHITCP_OK }
  | .CLEANUP => some (noop_result .CLOSED data false)
  | _ => some (noop_result .CLOSED data true)

/-- chitcpd_tcp_state_handle_LISTEN (tcp.c lines 171-182). -/
def chitcpd_tcp_state_handle_LISTEN (r : Nat) (data : tcp_data_t)
    (event : tcp_event_type_t) : Option handler_result :=
  match event with
  | .PACKET_ARRIVAL => handle_PACKET_ARRIVAL r .LISTEN data
  | _ => some (noop_result .LISTEN data true)

/-- chitcpd_tcp_state_handle_SYN_RCVD (tcp.c lines 184-198); the
TIMEOUT_RTX branch is an empty stub in the source. -/
def chitcpd_tcp_state_handle_SYN_RCVD (r : Nat) (data : tcp_data_t)
    (event : tcp_event_type_t) : Option handler_result :=
  match event with
  | .PACKET_ARRIVAL => handle_PACKET_ARRIVAL r .SYN_RCVD data
  | .TIMEOUT_RTX => some (noop_result .SYN_RCVD data false)
  | _ => some (noop_result .SYN_RCVD data true)

/-- chitcpd_tcp_state_handle_SYN_SENT (tcp.c lines 200-214); the
TIMEOUT_RTX branch is an empty stub in the source. -/
def chitcpd_tcp_state_handle_SYN_SENT (r : Nat) (data : tcp_data_t)
    (event : tcp_event_type_t) : Option handler_result :=
  match event with
  | .PACKET_ARRIVAL => handle_PACKET_ARRIVAL r .SYN_SENT data
  | .TIMEOUT_RTX => some (noop_result .SYN_SENT data false)
  | _ => some (noop_result .SYN_SENT data true)

/-- chitcpd_tcp_state_handle_ESTABLISHED (tcp.c lines 216-247); every
recognized branch is an empty stub in the source. -/
def chitcpd_tcp_state_handle_ESTABLISHED (data : tcp_data_t)
    (event : tcp_event_type_t) : Option handler_result :=
  match event with
  | .APPLICATION_SEND => some (noop_result .ESTABLISHED data false)
  | .PACKET_ARRIVAL => some (noop_result .ESTABLISHED data false)
  | .APPLICATION_RECEIVE => some (noop_result .ESTABLISHED data false)
  | .APPLICATION_CLOSE => some (noop_result .ESTABLISHED data false)
  | .TIMEOUT_RTX => some (noop_result .ESTABLISHED data false)
  | .TIMEOUT_PST => some (noop_result .ESTABLISHED data false)
  | _ => some (noop_result .ESTABLISHED data true)

/-- chitcpd_tcp_state_handle_FIN_WAIT_1 (tcp.c lines 249-271); all
recognized branches are empty stubs. -/
def chitcpd_tcp_state_handle_FIN_WAIT_1 (data : tcp_data_t)
    (event : tcp_event_type_t) : Option handler_result :=
  match event with
  | .PACKET_ARRIVAL => some (noop_result .FIN_WAIT_1 data false)
  | .APPLICATION_RECEIVE => some (noop_result .FIN_WAIT_1 data false)
  | .TIMEOUT_RTX => some (noop_result .FIN_WAIT_1 data false)
  | .TIMEOUT_PST => some (noop_result .FIN_WAIT_1 data false)
  | _ => some (noop_result .FIN_WAIT_1 data true)

/-- chitcpd_tcp_state_handle_FIN_WAIT_2 (tcp.c lines 274-292); all
recognized branches are empty stubs. -/
def chitcpd_tcp_state_handle_FIN_WAIT_2 (data : tcp_data_t)
    (event : tcp_event_type_t) : Option handler_result :=
  match event with
  | .PACKET_ARRIVAL => some (noop_result .FIN_WAIT_2 data false)
  | .APPLICATION_RECEIVE => some (noop_result .FIN_WAIT_2 data false)
  | .TIMEOUT_RTX => some (noop_result .FIN_WAIT_2 data false)
  | _ => some (noop_result .FIN_WAIT_2 data true)

/-- chitcpd_tcp_state_handle_CLOSE_WAIT (tcp.c lines 295-318); all
recognized branches are empty stubs. -/
def chitcpd_tcp_state_handle_CLOSE_WAIT (data : tcp_data_t)
    (event : tcp_event_type_t) : Option handler_result :=
  match event with
  | .APPLICATION_CLOSE => some (noop_result .CLOSE_WAIT data false)
  | .PACKET_ARRIVAL => some (noop_result .CLOSE_WAIT data false)
  | .TIMEOUT_RTX => some (noop_result .CLOSE_WAIT data false)
  | .TIMEOUT_PST => some (noop_result .CLOSE_WAIT data false)
  | _ => some (noop_result .CLOSE_WAIT data true)

/-- chitcpd_tcp_state_handle_CLOSING (tcp.c lines 321-339); all
recognized branches are empty stubs. -/
def chitcpd_tcp_state_handle_CLOSING (data : tcp_data_t)
    (event : tcp_event_type_t) : Option handler_result :=
  match event with
  | .PACKET_ARRIVAL => some (noop_result .CLOSING data false)
  | .TIMEOUT_RTX => some (noop_result .CLOSING data false)
  | .TIMEOUT_PST => some (noop_result .CLOSING data false)
  | _ => some (noop_result .CLOSING data true)

/-- chitcpd_tcp_state_handle_TIME_WAIT (tcp.c lines 342-347): logs a
warning on every event and returns CHITCP_OK. -/
def chitcpd_tcp_state_handle_TIME_WAIT (data : tcp_data_t)
    (_event : tcp_event_type_t) : Option handler_result :=
  some (noop_result .TIME_WAIT data true)

/-- chitcpd_tcp_state_handle_LAST_ACK (tcp.c lines 350-368); all
recognized branches are empty stubs. -/
def chitcpd_tcp_state_handle_LAST_ACK (data : tcp_data_t)
    (event : tcp_event_type_t) : Option handler_result :=
  match event with
  | .PACKET_ARRIVAL => some (noop_result .LAST_ACK data false)
  | .TIMEOUT_RTX => some (noop_result .LAST_ACK data false)
  | .TIMEOUT_PST => some (noop_result .LAST_ACK data false)
  | _ => some (noop_result .LAST_ACK data true)

/-- Modelled from the spec: the per-state dispatch of the worker loop
(spec section 4.1, a handler table from state to handler), routing an
event to the handler function of the current state. -/
def handle_event (r : Nat) (state : tcp_state_t) (data : tcp_data_t)
    (event : tcp_event_type_t) : Option handler_result :=
  match state with
  | .CLOSED => chitcpd_tcp_state_handle_CLOSED r data event
  | .LISTEN => chitcpd_tcp_state_handle_LISTEN r data event
  | .SYN_SENT => chitcpd_tcp_state_handle_SYN_SENT r data event
  | .SYN_RCVD => chitcpd_tcp_state_handle_SYN_RCVD r data event
  | .ESTABLISHED => chitcpd_tcp_state_handle_ESTABLISHED data event
  | .FIN_WAIT_1 => chitcpd_tcp_state_handle_FIN_WAIT_1 data event
  | .FIN_WAIT_2 => chitcpd_tcp_state_handle_FIN_WAIT_2 data event
  | .CLOSE_WAIT => chitcpd_tcp_state_handle_CLOSE_WAIT data event
  | .CLOSING => chitcpd_tcp_state_handle_CLOSING data event
  | .TIME_WAIT => chitcpd_tcp_state_handle_TIME_WAIT data event
  | .LAST_ACK => chitcpd_tcp_state_handle_LAST_ACK data event

/-- The events each state handler recognizes, read off the if-else
chains of the source: every other event falls into the final
warning-and-ignore branch of that handler. -/
def recognized : tcp_state_t → tcp_event_type_t → Bool
  | .CLOSED, .APPLICATION_CONNECT => true
  | .CLOSED, .CLEANUP => true
  | .LISTEN, .PACKET_ARRIVAL => true
  | .SYN_RCVD, .PACKET_ARRIVAL => true
  | .SYN_RCVD, .TIMEOUT_RTX => true
  | .SYN_SENT, .PACKET_ARRIVAL => true
  | .SYN_SENT, .TIMEOUT_RTX => true
  | .ESTABLISHED, .APPLICATION_SEND => true
  | .ESTABLISHED, .PACKET_ARRIVAL => true
  | .ESTABLISHED, .APPLICATION_RECEIVE => true
  | .ESTABLISHED, .APPLICATION_CLOSE => true
  | .ESTABLISHED, .TIMEOUT_RTX => true
  | .ESTABLISHED, .TIMEOUT_PST => true
  | .FIN_WAIT_1, .PACKET_ARRIVAL => true
  | .FIN_WAIT_1, .APPLICATION_RECEIVE => true
  | .FIN_WAIT_1, .TIMEOUT_RTX => true
  | .FIN_WAIT_1, .TIMEOUT_PST => true
  | .FIN_WAIT_2, .PACKET_ARRIVAL => true
  | .FIN_WAIT_2, .APPLICATION_RECEIVE => true
  | .FIN_WAIT_2, .TIMEOUT_RTX => true
  | .CLOSE_WAIT, .APPLICATION_CLOSE => true
  | .CLOSE_WAIT, .PACKET_ARRIVAL => true
  | .CLOSE_WAIT, .TIMEOUT_RTX => true
  | .CLOSE_WAIT, .TIMEOUT_PST => true
  | .CLOSING, .PACKET_ARRIVAL => true
  | .CLOSING, .TIMEOUT_RTX => true
  | .CLOSING, .TIMEOUT_PST => true
  | .LAST_ACK, .PACKET_ARRIVAL => true
  | .LAST_ACK, .TIMEOUT_RTX => true
  | .LAST_ACK, .TIMEOUT_PST => true
  | _, _ => false

/-- A producer pushing a parsed segment onto the pending-packet queue
of a connection (spec section 5: the demultiplexer places the segment
where the worker can retrieve it and enqueues a PACKET_ARRIVAL). -/
def push_packet (p : tcp_packet_t) (d : tcp_data_t) : tcp_data_t :=
  { d with pending_packets := d.pending_packets ++ [p] }

/-- The signed 32-bit wraparound difference of two sequence numbers, as
the spec section 4.2 describes it: b minus a reduced modulo two to the
32, reinterpreted as a signed 32-bit quantity. -/
def seq_diff (a b : Nat) : Int :=
  if (b % 4294967296 + 4294967296 - a % 4294967296) % 4294967296 < 2147483648 then
    ((b % 4294967296 + 4294967296 - a % 4294967296) % 4294967296 : Int)
  else
    ((b % 4294967296 + 4294967296 - a % 4294967296) % 4294967296 : Int) - 4294967296

/-- Wrapping strict comparison a before b of the spec: the wraparound
difference b minus a is positive. -/
def seq_lt (a b : Nat) : Bool := decide (0 < seq_diff a b)

/-- Wrapping comparison a at-or-before b of the spec: the wraparound
difference b minus a is nonnegative. -/
def seq_le (a b : Nat) : Bool := decide (0 ≤ seq_diff a b)

/-- Modelled from the spec: the ACK-acceptability test as the spec
section 4.2 words it, SND_UNA at-or-before SEG.ACK at-or-before
SND_NXT under the wrapping comparison. -/
def ack_acceptable_wrapping (snd_una snd_nxt seg_ack : Nat) : Bool :=
  seq_le snd_una seg_ack && seq_le seg_ack snd_nxt

/-- A freshly initialized connection record: empty queue, all sequence
variables zero, a 4096-byte receive buffer entirely available. -/
def init_data : tcp_data_t :=
  { pending_packets := [], ISS := 0, IRS := 0, SND_UNA := 0, SND_NXT := 0,
    SND_WND := 0, RCV_NXT := 0, RCV_WND := 0, recv_available := 4096 }

/-- A SYN segment with sequence number 100 and window 4096, the
passive-open scenario of spec section 8. -/
def c6_syn : tcp_packet_t :=
  ⟨{ seq := htonl 100, ack_seq := 0, syn := true, ack := false, fin := false,
     win := htons 4096 }⟩

/-- A bare ACK with sequence number 0 and acknowledgment number 2. -/
def c6_ack : tcp_packet_t :=
  ⟨{ seq := htonl 0, ack_seq := htonl 2, syn := false, ack := true, fin := false,
     win := htons 4096 }⟩

/-- The connection record after the LISTEN handler processes c6_syn
with rand value 0 (hence ISS 1). -/
def c6_data1 : tcp_data_t :=
  { pending_packets := [], ISS := 1, IRS := 100, SND_UNA := 1, SND_NXT := 2,
    SND_WND := 4096, RCV_NXT := 101, RCV_WND := 4096, recv_available := 4096 }

/-- The SYN-ACK the LISTEN handler emits for c6_syn: sequence 1,
acknowledgment 101. -/
def c6_synack : tcp_packet_t :=
  ⟨{ seq := htonl 1, ack_seq := htonl 101, syn := true, ack := true, fin := false,
     win := htons 4096 }⟩

/-- The connection record after the SYN_RCVD handler processes c6_ack:
RCV_NXT has been rewritten from 101 down to 1. -/
def c6_data2 : tcp_data_t :=
  { pending_packets := [], ISS := 1, IRS := 100, SND_UNA := 2, SND_NXT := 2,
    SND_WND := 4096, RCV_NXT := 1, RCV_WND := 4096, recv_available := 4096 }

/-- A SYN-ACK segment with sequence 300 and acknowledgment 2, delivered
to a LISTEN socket (the LISTEN path only tests the SYN flag). -/
def c7_synack_in : tcp_packet_t :=
  ⟨{ seq := htonl 300, ack_seq := htonl 2, syn := true, ack := true, fin := false,
     win := htons 4096 }⟩

/-- The record after the LISTEN handler processes c7_synack_in with
rand value 0. -/
def c7_data1 : tcp_data_t :=
  { pending_packets := [], ISS := 1, IRS := 300, SND_UNA := 1, SND_NXT := 2,
    SND_WND := 4096, RCV_NXT := 301, RCV_WND := 4096, recv_available := 4096 }

/-- The SYN-ACK emitted for c7_synack_in, acknowledging its sequence
number (ack 301). -/
def c7_synack_out : tcp_packet_t :=
  ⟨{ seq := htonl 1, ack_seq := htonl 301, syn := true, ack := true, fin := false,
     win := htons 4096 }⟩

/-- The record after the duplicate of c7_synack_in is reprocessed in
SYN_RCVD: SND_UNA has advanced and the state machine has moved on. -/
def c7_data2 : tcp_data_t :=
  { pending_packets := [], ISS := 1, IRS := 300, SND_UNA := 2, SND_NXT := 2,
    SND_WND := 4096, RCV_NXT := 301, RCV_WND := 4096, recv_available := 4096 }

/-- A SYN segment without the ACK flag, sequence 300: the simultaneous
open stimulus for a SYN_SENT connection. -/
def c5_syn : tcp_packet_t :=
  ⟨{ seq := htonl 300, ack_seq := 0, syn := true, ack := false, fin := false,
     win := htons 4096 }⟩

/-- A SYN_SENT connection (ISS 1, SND_UNA 1, SND_NXT 2) with c5_syn
pending. -/
def c5_data : tcp_data_t :=
  { pending_packets := [c5_syn], ISS := 1, IRS := 0, SND_UNA := 1, SND_NXT := 2,
    SND_WND := 0, RCV_NXT := 0, RCV_WND := 4096, recv_available := 4096 }

/-- A bare ACK whose acknowledgment number 4294967295 sits inside the
wrap-spanning send window from 4294967291 to 5. -/
def c4_pkt : tcp_packet_t :=
  ⟨{ seq := htonl 10, ack_seq := htonl 4294967295, syn := false, ack := true,
     fin := false, win := htons 100 }⟩

/-- A SYN_RCVD connection whose send window spans the 32-bit wrap
point: SND_UNA is 4294967291 and SND_NXT is 5, with c4_pkt pending. -/
def c4_data : tcp_data_t :=
  { pending_packets := [c4_pkt], ISS := 4294967290, IRS := 0,
    SND_UNA := 4294967291, SND_NXT := 5, SND_WND := 0, RCV_NXT := 10,
    RCV_WND := 4096, recv_available := 4096 }

/-- A SYN segment with sequence 100, used to instantiate theorems with
hypotheses at a concrete input. -/
def w_syn : tcp_packet_t :=
  ⟨{ seq := htonl 100, ack_seq := 0, syn := true, ack := false, fin := false,
     win := htons 4096 }⟩

/-- A SYN-ACK with sequence 300 and acknowledgment 2, acceptable for a
connection with ISS 1 and SND_NXT 2. -/
def w_synack : tcp_packet_t :=
  ⟨{ seq := htonl 300, ack_seq := htonl 2, syn := true, ack := true, fin := false,
     win := htons 4096 }⟩

/-- A SYN_SENT connection with ISS 1, SND_UNA 1, SND_NXT 2 and
w_synack pending. -/
def w2_data : tcp_data_t :=
  { pending_packets := [w_synack], ISS := 1, IRS := 0, SND_UNA := 1, SND_NXT := 2,
    SND_WND := 0, RCV_NXT := 0, RCV_WND := 4096, recv_available := 4096 }

/-- A LISTEN connection with w_syn pending. -/
def w3_data : tcp_data_t :=
  { pending_packets := [w_syn], ISS := 0, IRS := 0, SND_UNA := 0, SND_NXT := 0,
    SND_WND := 0, RCV_NXT := 0, RCV_WND := 0, recv_available := 4096 }

/-- A bare ACK with acknowledgment number 2, completing the passive
open of w3_data. -/
def w3_ack : tcp_packet_t :=
  ⟨{ seq := htonl 101, ack_seq := htonl 2, syn := false, ack := true, fin := false,
     win := htons 4096 }⟩

theorem htonl_bytes (a b c d : Nat) (ha : a < 256) (hb : b < 256) (hc : c < 256)
    (hd : d < 256) :
    htonl (a * 16777216 + b * 65536 + c * 256 + d) = d * 16777216 + c * 65536 + b * 256 + a := by
  unfold htonl
  omega

theorem ntohl_htonl (x : Nat) (h : x < 4294967296) : ntohl (htonl x) = x := by
  have hx : x = x / 16777216 * 16777216 + x / 65536 % 256 * 65536 + x / 256 % 256 * 256 + x % 256 := by
    omega
  have h3 : x / 16777216 < 256 := by omega
  calc ntohl (htonl x)
      = ntohl (htonl (x / 16777216 * 16777216 + x / 65536 % 256 * 65536 + x / 256 % 256 * 256 + x % 256)) := by
        rw [← hx]
    _ = ntohl (x % 256 * 16777216 + x / 256 % 256 * 65536 + x / 65536 % 256 * 256 + x / 16777216) := by
        rw [show ntohl = htonl from rfl, htonl_bytes _ _ _ _ h3 (by omega) (by omega) (by omega)]
    _ = x / 16777216 * 16777216 + x / 65536 % 256 * 65536 + x / 256 % 256 * 256 + x % 256 := by
        rw [show ntohl = htonl from rfl, htonl_bytes _ _ _ _ (by omega) (by omega) (by omega) h3]
    _ = x := hx.symm

theorem ntohl_lt (x : Nat) : ntohl x < 4294967296 := by
  unfold ntohl htonl
  omega

theorem htons_bytes (a b : Nat) (ha : a < 256) (hb : b < 256) :
    htons (a * 256 + b) = b * 256 + a := by
  unfold htons
  omega

theorem ntohs_htons (x : Nat) (h : x < 65536) : ntohs (htons x) = x := by
  have hx : x = x / 256 * 256 + x % 256 := by omega
  calc ntohs (htons x)
      = ntohs (htons (x / 256 * 256 + x % 256)) := by rw [← hx]
    _ = ntohs (x % 256 * 256 + x / 256) := by
        rw [show ntohs = htons from rfl, htons_bytes _ _ (by omega) (by omega)]
    _ = x / 256 * 256 + x % 256 := by
        rw [show ntohs = htons from rfl, htons_bytes _ _ (by omega) (by omega)]
    _ = x := hx.symm

/-- C9: the packet builders ACK_PACKET and SYN_ACK_PACKET leave every
field of the connection record unchanged, and the returned segment
carries, in network byte order, SND_NXT/RCV_NXT/RCV_WND (for the ACK)
and ISS/RCV_NXT/RCV_WND (for the SYN-ACK) as read from the record at
call time. -/
theorem packet_builders_pure_and_correct (data : tcp_data_t) :
    (ACK_PACKET data).2 = data
    ∧ (ACK_PACKET data).1.header.ack = true
    ∧ (ACK_PACKET data).1.header.syn = false
    ∧ (ACK_PACKET data).1.header.seq = htonl data.SND_NXT
    ∧ (ACK_PACKET data).1.header.ack_seq = htonl data.RCV_NXT
    ∧ (ACK_PACKET data).1.header.win = htons data.RCV_WND
    ∧ (SYN_ACK_PACKET data).2 = data
    ∧ (SYN_ACK_PACKET data).1.header.syn = true
    ∧ (SYN_ACK_PACKET data).1.header.ack = true
    ∧ (SYN_ACK_PACKET data).1.header.seq = htonl data.ISS
    ∧ (SYN_ACK_PACKET data).1.header.ack_seq = htonl data.RCV_NXT
    ∧ (SYN_ACK_PACKET data).1.header.win = htons data.RCV_WND :=
  ⟨rfl, rfl, rfl, rfl, rfl, rfl, rfl, rfl, rfl, rfl, rfl, rfl⟩

/-- C1: in CLOSED, APPLICATION_CONNECT sets SND_UNA to ISS and SND_NXT
to ISS plus one, sets RCV_WND to the available space of the receive
buffer, sends exactly one segment, a SYN carrying sequence number ISS
and advertised window RCV_WND, and transitions to SYN_SENT. -/
theorem closed_connect_sends_syn (r : Nat) (data : tcp_data_t)
    (hwnd : data.recv_available < 65536) :
    ∃ res q, handle_event r .CLOSED data .APPLICATION_CONNECT = some res
      ∧ res.data.ISS = r % 1000 + 1
      ∧ res.data.SND_UNA = res.data.ISS
      ∧ res.data.SND_NXT = res.data.ISS + 1
      ∧ res.data.RCV_WND = data.recv_available
      ∧ res.sent = [q]
      ∧ q.header.syn = true ∧ q.header.ack = false ∧ q.header.fin = false
      ∧ ntohl q.header.seq = res.data.ISS
      ∧ ntohs q.header.win = res.data.RCV_WND
      ∧ res.next_state = .SYN_SENT ∧ res.ret = CHITCP_OK := by
  refine ⟨_, _, rfl, rfl, rfl, ?_, rfl, rfl, rfl, rfl, rfl, ?_, ?_, rfl, rfl⟩
  · show (r % 1000 + 1 + 1) % 4294967296 = r % 1000 + 1 + 1
    omega
  · show ntohl (htonl (r % 1000 + 1)) = r % 1000 + 1
    exact ntohl_htonl _ (by omega)
  · show ntohs (htons data.recv_available) = data.recv_available
    exact ntohs_htons _ hwnd

/-- Witness for C1 at rand value 0 and a fresh record. -/
theorem closed_connect_sends_syn_witness :
    init_data.recv_available < 65536
    ∧ ∃ res q, handle_event 0 .CLOSED init_data .APPLICATION_CONNECT = some res
      ∧ res.data.ISS = 0 % 1000 + 1
      ∧ res.data.SND_UNA = res.data.ISS
      ∧ res.data.SND_NXT = res.data.ISS + 1
      ∧ res.data.RCV_WND = init_data.recv_available
      ∧ res.sent = [q]
      ∧ q.header.syn = true ∧ q.header.ack = false ∧ q.header.fin = false
      ∧ ntohl q.header.seq = res.data.ISS
      ∧ ntohs q.header.win = res.data.RCV_WND
      ∧ res.next_state = .SYN_SENT ∧ res.ret = CHITCP_OK :=
  ⟨by decide, closed_connect_sends_syn 0 init_data (by decide)⟩

/-- C8: for every state handler and every event its if-else chain does
not recognize, the handler logs the unexpected-event warning, leaves
the record and the state untouched, sends nothing and returns
CHITCP_OK. -/
theorem unrecognized_event_ignored (r : Nat) (state : tcp_state_t)
    (data : tcp_data_t) (event : tcp_event_type_t)
    (h : recognized state event = false) :
    handle_event r state data event = some (noop_result state data true) := by
  cases state <;> cases event <;> first
    | rfl
    | simp [recognized] at h

/-- Witness for C8: PACKET_ARRIVAL delivered in TIME_WAIT. -/
theorem unrecognized_event_ignored_witness :
    recognized .TIME_WAIT .PACKET_ARRIVAL = false
    ∧ handle_event 0 .TIME_WAIT init_data .PACKET_ARRIVAL
        = some (noop_result .TIME_WAIT init_data true) :=
  ⟨rfl, unrecognized_event_ignored 0 .TIME_WAIT init_data .PACKET_ARRIVAL rfl⟩

/-- C10: every invocation of handle_PACKET_ARRIVAL pops exactly the
head of pending_packets and frees it, regardless of the segment flags,
the acceptability outcome or the state; on an empty queue the head
dereference is undefined, modelled as the result none. -/
theorem packet_arrival_pops_head (r : Nat) (state : tcp_state_t) (d : tcp_data_t) :
    (d.pending_packets = [] → handle_PACKET_ARRIVAL r state d = none)
    ∧ (∀ p rest, d.pending_packets = p :: rest →
        ∃ res, handle_PACKET_ARRIVAL r state d = some res
          ∧ res.data.pending_packets = rest
          ∧ p ∈ res.freed) := by
  constructor
  · intro h
    simp only [handle_PACKET_ARRIVAL, h]
  · intro p rest h
    simp only [handle_PACKET_ARRIVAL, h]
    cases state <;> (repeat' split) <;>
      exact ⟨_, rfl, rfl, by simp⟩

/-- Witness for C10: a LISTEN connection holding one pending SYN. -/
theorem packet_arrival_pops_head_witness :
    w3_data.pending_packets = w_syn :: []
    ∧ ∃ res, handle_PACKET_ARRIVAL 0 .LISTEN w3_data = some res
        ∧ res.data.pending_packets = []
        ∧ w_syn ∈ res.freed :=
  ⟨rfl, (packet_arrival_pops_head 0 .LISTEN w3_data).2 w_syn [] rfl⟩

/-- C5 (behaviour of the stub): a SYN without ACK arriving in SYN_SENT
is popped and freed but triggers no SYN-ACK and no transition; the
simultaneous-open branch of the source is empty. -/
theorem syn_sent_simultaneous_open_stub :
    c5_syn.header.syn = true ∧ c5_syn.header.ack = false
    ∧ handle_event 0 .SYN_SENT c5_data .PACKET_ARRIVAL
        = some { data := { c5_data with pending_packets := [] },
                 next_state := .SYN_SENT, sent := [], freed := [c5_syn],
                 warned := false, ret := CHITCP_OK } :=
  ⟨rfl, rfl, rfl⟩

/-- C6 (violation exhibited): a LISTEN connection processes a SYN with
sequence 100, setting RCV_NXT to 101; a subsequent acceptable ACK whose
sequence number is 0 is processed in SYN_RCVD and rewrites RCV_NXT down
to 1, a strict decrease under the wrapping comparison. -/
theorem rcv_nxt_moves_backwards :
    handle_event 0 .LISTEN (push_packet c6_syn init_data) .PACKET_ARRIVAL
      = some { data := c6_data1, next_state := .SYN_RCVD, sent := [c6_synack],
               freed := [c6_synack, c6_syn], warned := false, ret := CHITCP_OK }
    ∧ handle_event 0 .SYN_RCVD (push_packet c6_ack c6_data1) .PACKET_ARRIVAL
      = some { data := c6_data2, next_state := .ESTABLISHED, sent := [],
               freed := [c6_ack], warned := false, ret := CHITCP_OK }
    ∧ c6_data1.RCV_NXT = 101 ∧ c6_data2.RCV_NXT = 1
    ∧ seq_diff c6_data1.RCV_NXT c6_data2.RCV_NXT < 0 :=
  ⟨by decide, by decide, rfl, rfl, by decide⟩

/-- C7 (violation exhibited): a SYN-ACK with sequence 300 and
acknowledgment 2 arrives at a LISTEN socket; it is processed as a SYN
and acknowledged by the emitted SYN-ACK (ack 301); reprocessing the
same segment in the resulting SYN_RCVD state finds its acknowledgment
number acceptable for the freshly chosen window, advances SND_UNA from
1 to 2 and transitions to ESTABLISHED. -/
theorem duplicate_synack_not_idempotent :
    c7_synack_in.header.syn = true ∧ c7_synack_in.header.ack = true
    ∧ handle_event 0 .LISTEN (push_packet c7_synack_in init_data) .PACKET_ARRIVAL
      = some { data := c7_data1, next_state := .SYN_RCVD, sent := [c7_synack_out],
               freed := [c7_synack_out, c7_synack_in], warned := false,
               ret := CHITCP_OK }
    ∧ c7_synack_out.header.ack = true
    ∧ ntohl c7_synack_out.header.ack_seq = SEG_SEQ c7_synack_in + 1
    ∧ handle_event 0 .SYN_RCVD (push_packet c7_synack_in c7_data1) .PACKET_ARRIVAL
      = some { data := c7_data2, next_state := .ESTABLISHED, sent := [],
               freed := [c7_synack_in], warned := false, ret := CHITCP_OK }
    ∧ c7_data2.SND_UNA ≠ c7_data1.SND_UNA
    ∧ tcp_state_t.ESTABLISHED ≠ tcp_state_t.SYN_RCVD :=
  ⟨rfl, rfl, by decide, rfl, by decide, by decide, by decide, by decide⟩

/-- C4 (counterexample): when the send window spans the 32-bit wrap
point (SND_UNA 4294967291, SND_NXT 5), the plain unsigned comparison of
the code rejects acknowledgment number 4294967295, which the wrapping
comparison of the spec accepts; the SYN_RCVD handler accordingly drops
the segment without any state change. -/
theorem wrap_window_ack_rejected :
    ack_acceptable 4294967291 5 4294967295 = false
    ∧ ack_acceptable_wrapping 4294967291 5 4294967295 = true
    ∧ SEG_ACK c4_pkt = 4294967295
    ∧ c4_data.SND_UNA = 4294967291 ∧ c4_data.SND_NXT = 5
    ∧ handle_event 0 .SYN_RCVD c4_data .PACKET_ARRIVAL
        = some { data := { c4_data with pending_packets := [] },
                 next_state := .SYN_RCVD, sent := [], freed := [c4_pkt],
                 warned := false, ret := CHITCP_OK } :=
  ⟨by decide, by decide, by decide, rfl, rfl, by decide⟩

/-- C4 (amended): the acceptability tests of the handler use plain
unsigned 32-bit comparison; whenever the window does not span the
wrap point they agree with the wrapping comparison of the spec, both
for the SND_UNA-to-SND_NXT acceptance test and for the SYN_SENT
illegal-acknowledgment pre-check over the ISS-to-SND_NXT window. -/
theorem plain_ack_test_agrees_without_wrap (una nxt k iss : Nat)
    (huna : una < 4294967296) (hnxt : nxt < 4294967296) (hk : k < 4294967296)
    (hiss : iss < 4294967296) :
    (una ≤ nxt → nxt - una < 2147483648 →
      (ack_acceptable una nxt k = true ↔ ack_acceptable_wrapping una nxt k = true))
    ∧ (iss ≤ nxt → nxt - iss < 2147483648 →
      (illegal_ack_SYN_SENT iss nxt k = false ↔
        (seq_lt iss k = true ∧ seq_le k nxt = true))) := by
  constructor <;> intro h1 h2 <;>
    simp only [ack_acceptable, ack_acceptable_wrapping, illegal_ack_SYN_SENT,
      seq_le, seq_lt, seq_diff, Bool.and_eq_true, Bool.or_eq_false_iff,
      decide_eq_true_eq, decide_eq_false_iff_not, not_le, not_lt] <;>
    split_ifs <;> omega

/-- Witness for the amended C4 at a window away from the wrap point. -/
theorem plain_ack_test_agrees_without_wrap_witness :
    ack_acceptable 10 20 15 = true ↔ ack_acceptable_wrapping 10 20 15 = true :=
  (plain_ack_test_agrees_without_wrap 10 20 15 5 (by decide) (by decide)
    (by decide) (by decide)).1 (by decide) (by decide)

/-- C2: in SYN_SENT, a segment carrying an acceptable ACK and the SYN
flag sets RCV_NXT to SEG.SEQ plus one, IRS to SEG.SEQ, SND_UNA to
SEG.ACK and SND_WND to SEG.WND; when SND_UNA then exceeds ISS the
handler emits exactly one ACK with sequence ISS plus one (equal to
SND_NXT) and acknowledgment SEG.SEQ plus one and moves to ESTABLISHED,
and otherwise emits a SYN-ACK and moves to SYN_RCVD. -/
theorem syn_sent_synack_completes_handshake (r : Nat) (data : tcp_data_t)
    (p : tcp_packet_t) (rest : List tcp_packet_t)
    (hpend : data.pending_packets = p :: rest)
    (hack : p.header.ack = true) (hsyn : p.header.syn = true)
    (hlegal : illegal_ack_SYN_SENT data.ISS data.SND_NXT (SEG_ACK p) = false)
    (hacc : ack_acceptable data.SND_UNA data.SND_NXT (SEG_ACK p) = true)
    (hnxt : data.SND_NXT = data.ISS + 1)
    (hiss : data.ISS + 1 < 4294967296) :
    ∃ res, handle_event r .SYN_SENT data .PACKET_ARRIVAL = some res
      ∧ res.data.RCV_NXT = (SEG_SEQ p + 1) % 4294967296
      ∧ res.data.IRS = SEG_SEQ p
      ∧ res.data.SND_UNA = SEG_ACK p
      ∧ res.data.SND_WND = SEG_WND p
      ∧ (data.ISS < SEG_ACK p →
          ∃ q, res.sent = [q] ∧ q.header.ack = true ∧ q.header.syn = false
            ∧ ntohl q.header.seq = data.ISS + 1
            ∧ ntohl q.header.seq = data.SND_NXT
            ∧ ntohl q.header.ack_seq = (SEG_SEQ p + 1) % 4294967296
            ∧ res.next_state = .ESTABLISHED)
      ∧ (¬ data.ISS < SEG_ACK p →
          ∃ q, res.sent = [q] ∧ q.header.syn = true ∧ q.header.ack = true
            ∧ res.next_state = .SYN_RCVD) := by
  have hgt : data.ISS < SEG_ACK p := by
    have h := hlegal
    simp only [illegal_ack_SYN_SENT, Bool.or_eq_false_iff,
      decide_eq_false_iff_not, not_le, not_lt] at h
    exact h.1
  simp only [handle_event, chitcpd_tcp_state_handle_SYN_SENT,
    handle_PACKET_ARRIVAL, hpend, hack, hsyn, hlegal, hacc, hgt, if_true,
    Bool.false_eq_true, if_false, ite_true, ite_false]
  refine ⟨_, rfl, rfl, rfl, rfl, rfl, ?_, ?_⟩
  · intro _
    refine ⟨_, rfl, rfl, rfl, ?_, ?_, ?_, rfl⟩
    · show ntohl (htonl data.SND_NXT) = data.ISS + 1
      rw [ntohl_htonl _ (by omega)]
      exact hnxt
    · show ntohl (htonl data.SND_NXT) = data.SND_NXT
      exact ntohl_htonl _ (by omega)
    · exact ntohl_htonl _ (Nat.mod_lt _ (by omega))
  · intro hn
    exact absurd trivial hn

/-- Witness for C2: ISS 1, SND_NXT 2, arriving SYN-ACK with
acknowledgment 2 and sequence 300. -/
theorem syn_sent_synack_completes_handshake_witness :
    w2_data.pending_packets = w_synack :: []
    ∧ w_synack.header.ack = true ∧ w_synack.header.syn = true
    ∧ illegal_ack_SYN_SENT w2_data.ISS w2_data.SND_NXT (SEG_ACK w_synack) = false
    ∧ ack_acceptable w2_data.SND_UNA w2_data.SND_NXT (SEG_ACK w_synack) = true
    ∧ w2_data.SND_NXT = w2_data.ISS + 1
    ∧ w2_data.ISS + 1 < 4294967296
    ∧ ∃ res, handle_event 0 .SYN_SENT w2_data .PACKET_ARRIVAL = some res
      ∧ res.data.RCV_NXT = (SEG_SEQ w_synack + 1) % 4294967296
      ∧ res.data.IRS = SEG_SEQ w_synack
      ∧ res.data.SND_UNA = SEG_ACK w_synack
      ∧ res.data.SND_WND = SEG_WND w_synack
      ∧ (w2_data.ISS < SEG_ACK w_synack →
          ∃ q, res.sent = [q] ∧ q.header.ack = true ∧ q.header.syn = false
            ∧ ntohl q.header.seq = w2_data.ISS + 1
            ∧ ntohl q.header.seq = w2_data.SND_NXT
            ∧ ntohl q.header.ack_seq = (SEG_SEQ w_synack + 1) % 4294967296
            ∧ res.next_state = .ESTABLISHED)
      ∧ (¬ w2_data.ISS < SEG_ACK w_synack →
          ∃ q, res.sent = [q] ∧ q.header.syn = true ∧ q.header.ack = true
            ∧ res.next_state = .SYN_RCVD) :=
  ⟨rfl, rfl, rfl, by decide, by decide, rfl, by decide,
    syn_sent_synack_completes_handshake 0 w2_data w_synack [] rfl rfl rfl
      (by decide) (by decide) rfl (by decide)⟩

/-- C3: in LISTEN, a segment with the SYN flag sets IRS to SEG.SEQ and
RCV_NXT to IRS plus one, chooses a new ISS, sends exactly one SYN-ACK
with sequence ISS and acknowledgment RCV_NXT, sets SND_NXT to ISS plus
one, SND_UNA to ISS and SND_WND to SEG.WND, and transitions to
SYN_RCVD; a subsequent acceptable ACK processed in SYN_RCVD transitions
the connection to ESTABLISHED. -/
theorem listen_syn_starts_passive_open (r r2 : Nat) (data : tcp_data_t)
    (p : tcp_packet_t) (rest : List tcp_packet_t)
    (hpend : data.pending_packets = p :: rest)
    (hsyn : p.header.syn = true) :
    ∃ res sa, handle_event r .LISTEN data .PACKET_ARRIVAL = some res
      ∧ res.data.IRS = SEG_SEQ p
      ∧ res.data.RCV_NXT = (SEG_SEQ p + 1) % 4294967296
      ∧ res.data.ISS = r % 1000 + 1
      ∧ res.sent = [sa]
      ∧ sa.header.syn = true ∧ sa.header.ack = true
      ∧ ntohl sa.header.seq = res.data.ISS
      ∧ ntohl sa.header.ack_seq = (SEG_SEQ p + 1) % 4294967296
      ∧ res.data.SND_NXT = res.data.ISS + 1
      ∧ res.data.SND_UNA = res.data.ISS
      ∧ res.data.SND_WND = SEG_WND p
      ∧ res.next_state = .SYN_RCVD
      ∧ (∀ q qrest, q.header.ack = true →
          ack_acceptable res.data.SND_UNA res.data.SND_NXT (SEG_ACK q) = true →
          ∃ res2, handle_event r2 .SYN_RCVD
              { res.data with pending_packets := q :: qrest } .PACKET_ARRIVAL
              = some res2
            ∧ res2.next_state = .ESTABLISHED) := by
  simp only [handle_event, chitcpd_tcp_state_handle_LISTEN,
    handle_PACKET_ARRIVAL, hpend, hsyn, ite_true]
  refine ⟨_, _, rfl, rfl, rfl, rfl, rfl, rfl, rfl, ?_, ?_, ?_, rfl, rfl, rfl, ?_⟩
  · exact ntohl_htonl _ (by show r % 1000 + 1 < 4294967296; omega)
  · exact ntohl_htonl _ (Nat.mod_lt _ (by omega))
  · show (r % 1000 + 1 + 1) % 4294967296 = r % 1000 + 1 + 1
    omega
  · intro q qrest hqack hqacc
    simp only [handle_event, chitcpd_tcp_state_handle_SYN_RCVD,
      handle_PACKET_ARRIVAL, hqack, hqacc, ite_true]
    exact ⟨_, rfl, rfl⟩

/-- Witness for C3: passive open with a SYN of sequence 100 and rand
value 0, followed by the ACK with acknowledgment 2. -/
theorem listen_syn_starts_passive_open_witness :
    w3_data.pending_packets = w_syn :: []
    ∧ w_syn.header.syn = true
    ∧ ∃ res sa, handle_event 0 .LISTEN w3_data .PACKET_ARRIVAL = some res
      ∧ res.data.IRS = SEG_SEQ w_syn
      ∧ res.data.RCV_NXT = (SEG_SEQ w_syn + 1) % 4294967296
      ∧ res.data.ISS = 0 % 1000 + 1
      ∧ res.sent = [sa]
      ∧ sa.header.syn = true ∧ sa.header.ack = true
      ∧ ntohl sa.header.seq = res.data.ISS
      ∧ ntohl sa.header.ack_seq = (SEG_SEQ w_syn + 1) % 4294967296
      ∧ res.data.SND_NXT = res.data.ISS + 1
      ∧ res.data.SND_UNA = res.data.ISS
      ∧ res.data.SND_WND = SEG_WND w_syn
      ∧ res.next_state = .SYN_RCVD
      ∧ (∀ q qrest, q.header.ack = true →
          ack_acceptable res.data.SND_UNA res.data.SND_NXT (SEG_ACK q) = true →
          ∃ res2, handle_event 0 .SYN_RCVD
              { res.data with pending_packets := q :: qrest } .PACKET_ARRIVAL
              = some res2
            ∧ res2.next_state = .ESTABLISHED) :=
  ⟨rfl, rfl, listen_syn_starts_passive_open 0 0 w3_data w_syn [] rfl rfl⟩

end ChiTCP
